import Mathlib

/-!
Verification of the BarangayLink request-triage and notification-fanout core.

The development shallowly embeds the source of `src/services/aiService.js`
(fallback prioritization, fallback chatbot matcher, fallback resource
prediction, and the classifier gateway that arbitrates between the external
service and the fallbacks) and the socket/room utility module (connection
room joins, typing fanout, and the notification helpers).

Modelling conventions:
- JavaScript floating-point scores and confidences in this code are always
  multiples of 0.01 and are passed through `toFixed(2)`, so they are embedded
  exactly as natural numbers counting hundredths (e.g. 0.92 becomes 92).
- `Math.ceil(P / q)` on non-negative integers is embedded as the exact
  rational ceiling `(P + q - 1) / q` over `Nat`.
- Ambient-time fields (`timestamp`, `updatedAt`: `new Date().toISOString()`)
  are omitted: they carry no program logic.
- Fallible paths (`try`/`catch`, the external HTTP call) are embedded with
  `Except`, with the catch branch made explicit by matching on the error.
-/

namespace BarangayLink

/-- Substring test over character lists: does the first list start with the
second one?  Mirrors the prefix step of JavaScript `String.includes`. -/
def startsWithChars : List Char → List Char → Bool
  | _, [] => true
  | [], _ :: _ => false
  | a :: as, b :: bs => a == b && startsWithChars as bs

/-- Containment of `needle` in `hay` at any position, the semantics of
JavaScript `hay.includes(needle)` (substring containment, not word-boundary;
the empty needle is contained in everything). -/
def containsChars : List Char → List Char → Bool
  | [], needle => needle.isEmpty
  | c :: t, needle => startsWithChars (c :: t) needle || containsChars t needle

/-- JavaScript `hay.includes(needle)` on strings. -/
def strContains (hay needle : String) : Bool :=
  containsChars hay.toList needle.toList

/-- JavaScript `s.toLowerCase()` (ASCII): maps `Char.toLower` over the
characters.  Extensionally identical to `String.toLower` (which is
`s.map Char.toLower`), restated over the character list so that it reduces
inside the kernel. -/
def lowerString (s : String) : String :=
  String.mk (s.data.map Char.toLower)

/-- Priority levels produced by the triage engine. -/
inductive Priority
  | URGENT
  | HIGH
  | MEDIUM
  | LOW
deriving DecidableEq, Repr

/-- Inputs to `prioritizeRequest` / `fallbackPrioritization` (the fields the
fallback engine reads; `location` and `historicalContext` are only forwarded
to the external service and never inspected by the fallback). -/
structure RequestData where
  title : String
  description : String
  category : String
deriving DecidableEq, Repr

/-- Result shape of `fallbackPrioritization` (score in hundredths). -/
structure ClassificationResult where
  priority : Priority
  score : Nat
  reason : String
  suggestedCategory : String
deriving DecidableEq, Repr

/-- The `emergencyKeywords` array of `fallbackPrioritization`. -/
def emergencyKeywords : List String :=
  ["emergency", "urgent", "critical", "accident", "fire",
   "flood", "earthquake", "blood", "heart attack", "stroke",
   "pregnant", "child", "baby", "missing", "danger",
   "dying", "emergency room", "hospital", "ambulance"]

/-- The `highPriorityKeywords` array of `fallbackPrioritization`. -/
def highPriorityKeywords : List String :=
  ["medicine", "medication", "sick", "fever", "cough",
   "hungry", "starving", "food", "water", "shelter",
   "homeless", "evicted", "no electricity", "no water"]

/-- Number of keywords of `keywords` contained in `text`
(`keywords.filter(k => text.includes(k)).length`). -/
def countMatches (text : String) (keywords : List String) : Nat :=
  (keywords.filter (fun k => strContains text k)).length

/-- The lower-cased concatenation scanned for keywords:
`` `${title} ${description}`.toLowerCase() ``. -/
def triageText (rd : RequestData) : String :=
  lowerString (rd.title ++ " " ++ rd.description)

/-- The `emergencyMatches` count of `fallbackPrioritization`. -/
def emergencyCount (rd : RequestData) : Nat :=
  countMatches (triageText rd) emergencyKeywords

/-- The `highPriorityMatches` count of `fallbackPrioritization`. -/
def highPriorityCount (rd : RequestData) : Nat :=
  countMatches (triageText rd) highPriorityKeywords

/-- The priority/score decision chain of `fallbackPrioritization`
(scores in hundredths, before the final cap at 0.99).  The source initialises
`priority = MEDIUM, score = 0.5`, but every branch of the chain overwrites
both, so the initial values are dead. -/
def classifyCore (em hp : Nat) (category : String) : Priority × Nat :=
  if 0 < em then
    (Priority.URGENT, 90 + em * 2)
  else if 0 < hp ∨ category = "MEDICAL" ∨ category = "EMERGENCY" then
    (Priority.HIGH, 70 + hp * 5)
  else if category = "FOOD" then
    (Priority.HIGH, 75)
  else if category = "EDUCATION" ∨ category = "LEGAL" then
    (Priority.MEDIUM, 60)
  else
    (Priority.LOW, 40)

/-- The reason string of `fallbackPrioritization`. -/
def reasonFor (em hp : Nat) (category : String) : String :=
  if 0 < em then
    "Contains " ++ toString em ++ " emergency keyword(s)"
  else if 0 < hp then
    "Contains " ++ toString hp ++ " high-priority keyword(s)"
  else
    "Category-based priority: " ++ category

/-- `fallbackPrioritization(requestData)` from `aiService.js`: rule-based
triage with the final `Math.min(score, 0.99)` cap (99 in hundredths); the
`parseFloat(score.toFixed(2))` step is the identity on these values since
every branch yields an exact multiple of 0.01. -/
def fallbackPrioritization (rd : RequestData) : ClassificationResult :=
  let em := emergencyCount rd
  let hp := highPriorityCount rd
  let pc := classifyCore em hp rd.category
  { priority := pc.1
    score := min pc.2 99
    reason := reasonFor em hp rd.category
    suggestedCategory := rd.category }

/-- Rank of a priority in the ordering URGENT > HIGH > MEDIUM > LOW. -/
def priorityRank : Priority → Nat
  | Priority.URGENT => 3
  | Priority.HIGH => 2
  | Priority.MEDIUM => 1
  | Priority.LOW => 0

/-- Per-priority bounds on the fallback score: URGENT scores lie in
[0.92, 0.99], HIGH scores in [0.70, 0.99], MEDIUM is exactly 0.60 and LOW is
exactly 0.40 (hundredths). -/
theorem fallback_score_bounds (rd : RequestData) :
    ((fallbackPrioritization rd).priority = Priority.URGENT →
      92 ≤ (fallbackPrioritization rd).score ∧ (fallbackPrioritization rd).score ≤ 99) ∧
    ((fallbackPrioritization rd).priority = Priority.HIGH →
      70 ≤ (fallbackPrioritization rd).score ∧ (fallbackPrioritization rd).score ≤ 99) ∧
    ((fallbackPrioritization rd).priority = Priority.MEDIUM →
      (fallbackPrioritization rd).score = 60) ∧
    ((fallbackPrioritization rd).priority = Priority.LOW →
      (fallbackPrioritization rd).score = 40) := by
  simp only [fallbackPrioritization, classifyCore]
  split_ifs with h1 h2 h3 h4 <;> simp_all
  omega

/-- C2: the fallback classifier is total, its score is capped at 0.99, and
the priority follows the stated decision order: emergency keywords first,
then high-priority keywords or MEDICAL/EMERGENCY category, then FOOD, then
EDUCATION/LEGAL, then the LOW default. -/
theorem fallback_classify_rule_order (rd : RequestData) :
    (fallbackPrioritization rd).score ≤ 99 ∧
    (0 < emergencyCount rd →
      (fallbackPrioritization rd).priority = Priority.URGENT) ∧
    (emergencyCount rd = 0 →
      (0 < highPriorityCount rd ∨ rd.category = "MEDICAL" ∨ rd.category = "EMERGENCY") →
      (fallbackPrioritization rd).priority = Priority.HIGH) ∧
    (emergencyCount rd = 0 → highPriorityCount rd = 0 →
      rd.category ≠ "MEDICAL" → rd.category ≠ "EMERGENCY" → rd.category = "FOOD" →
      (fallbackPrioritization rd).priority = Priority.HIGH ∧
        (fallbackPrioritization rd).score = 75) ∧
    (emergencyCount rd = 0 → highPriorityCount rd = 0 →
      rd.category ≠ "MEDICAL" → rd.category ≠ "EMERGENCY" → rd.category ≠ "FOOD" →
      (rd.category = "EDUCATION" ∨ rd.category = "LEGAL") →
      (fallbackPrioritization rd).priority = Priority.MEDIUM ∧
        (fallbackPrioritization rd).score = 60) ∧
    (emergencyCount rd = 0 → highPriorityCount rd = 0 →
      rd.category ≠ "MEDICAL" → rd.category ≠ "EMERGENCY" → rd.category ≠ "FOOD" →
      rd.category ≠ "EDUCATION" → rd.category ≠ "LEGAL" →
      (fallbackPrioritization rd).priority = Priority.LOW ∧
        (fallbackPrioritization rd).score = 40) := by
  refine ⟨?_, ?_, ?_, ?_, ?_, ?_⟩
  · simp only [fallbackPrioritization]
    exact Nat.min_le_right _ _
  · intro h
    simp [fallbackPrioritization, classifyCore, h]
  · intro h0 h1
    simp [fallbackPrioritization, classifyCore, h0, h1]
  · intro h0 h1 h2 h3 h4
    simp [fallbackPrioritization, classifyCore, h0, h1, h2, h3, h4]
  · intro h0 h1 h2 h3 h4 h5
    simp [fallbackPrioritization, classifyCore, h0, h1, h2, h3, h4, h5]
  · intro h0 h1 h2 h3 h4 h5 h6
    simp [fallbackPrioritization, classifyCore, h0, h1, h2, h3, h4, h5, h6]

/-- Witness for `fallback_classify_rule_order` at the concrete input
(title "", description "", category "FOOD"). -/
theorem fallback_classify_rule_order_witness :
    (fallbackPrioritization ⟨"", "", "FOOD"⟩).score ≤ 99 ∧
    (fallbackPrioritization ⟨"", "", "FOOD"⟩).priority = Priority.HIGH ∧
    (fallbackPrioritization ⟨"", "", "FOOD"⟩).score = 75 :=
  ⟨(fallback_classify_rule_order ⟨"", "", "FOOD"⟩).1,
   ((fallback_classify_rule_order ⟨"", "", "FOOD"⟩).2.2.2.1 (by decide) (by decide)
      (by decide) (by decide) rfl).1,
   ((fallback_classify_rule_order ⟨"", "", "FOOD"⟩).2.2.2.1 (by decide) (by decide)
      (by decide) (by decide) rfl).2⟩

/-- C3: whenever at least one emergency keyword occurs in the lower-cased
title/description text (k matches), the fallback classifier returns URGENT
with score min(0.90 + 0.02·k, 0.99) and the reason "Contains k emergency
keyword(s)", regardless of category; `suggestedCategory` echoes the input. -/
theorem classify_emergency_urgent (rd : RequestData) (h : 0 < emergencyCount rd) :
    fallbackPrioritization rd =
      { priority := Priority.URGENT
        score := min (90 + emergencyCount rd * 2) 99
        reason := "Contains " ++ toString (emergencyCount rd) ++ " emergency keyword(s)"
        suggestedCategory := rd.category } := by
  simp [fallbackPrioritization, classifyCore, reasonFor, h]

/-- Witness for `classify_emergency_urgent`: the spec example
`classify("There is a fire emergency", "need help now", "OTHER")` matches
k = 2 emergency terms ("fire" and "emergency") and yields URGENT with score
0.94 and reason "Contains 2 emergency keyword(s)". -/
theorem classify_emergency_urgent_witness :
    0 < emergencyCount ⟨"There is a fire emergency", "need help now", "OTHER"⟩ ∧
    fallbackPrioritization ⟨"There is a fire emergency", "need help now", "OTHER"⟩ =
      ⟨Priority.URGENT, 94, "Contains 2 emergency keyword(s)", "OTHER"⟩ :=
  ⟨by decide,
   by rw [classify_emergency_urgent _ (by decide)]; decide⟩

/-- C4 counterexample: at (title "", description "", category "MEDICAL") the
code classifies HIGH with score 0.70 but the reason is the category-based
string, not "Contains 0 high-priority keyword(s)" as the claim asserts for
the N = 0 case. -/
theorem classify_high_priority_reason_cex :
    (fallbackPrioritization ⟨"", "", "MEDICAL"⟩).priority = Priority.HIGH ∧
    (fallbackPrioritization ⟨"", "", "MEDICAL"⟩).score = 70 ∧
    (fallbackPrioritization ⟨"", "", "MEDICAL"⟩).reason = "Category-based priority: MEDICAL" ∧
    ¬((fallbackPrioritization ⟨"", "", "MEDICAL"⟩).reason =
        "Contains 0 high-priority keyword(s)") := by decide

/-- C4 amended: with no emergency match, if the high-priority count N is
positive or the category is MEDICAL/EMERGENCY, the classifier returns HIGH
with score min(0.70 + 0.05·N, 0.99); the reason is
"Contains N high-priority keyword(s)" when N > 0 and the category-based
string when N = 0. -/
theorem classify_high_priority_branch (rd : RequestData)
    (h0 : emergencyCount rd = 0)
    (h1 : 0 < highPriorityCount rd ∨ rd.category = "MEDICAL" ∨ rd.category = "EMERGENCY") :
    (fallbackPrioritization rd).priority = Priority.HIGH ∧
    (fallbackPrioritization rd).score = min (70 + highPriorityCount rd * 5) 99 ∧
    (0 < highPriorityCount rd →
      (fallbackPrioritization rd).reason =
        "Contains " ++ toString (highPriorityCount rd) ++ " high-priority keyword(s)") ∧
    (highPriorityCount rd = 0 →
      (fallbackPrioritization rd).reason = "Category-based priority: " ++ rd.category) := by
  refine ⟨?_, ?_, ?_, ?_⟩
  · simp [fallbackPrioritization, classifyCore, h0, h1]
  · simp [fallbackPrioritization, classifyCore, h0, h1]
  · intro hp
    simp [fallbackPrioritization, reasonFor, h0, hp]
  · intro hz
    simp [fallbackPrioritization, reasonFor, h0, hz]

/-- Witness for `classify_high_priority_branch` at
(title "need medicine", description "", category "OTHER"): one high-priority
keyword, priority HIGH, score 0.75. -/
theorem classify_high_priority_branch_witness :
    emergencyCount ⟨"need medicine", "", "OTHER"⟩ = 0 ∧
    0 < highPriorityCount ⟨"need medicine", "", "OTHER"⟩ ∧
    (fallbackPrioritization ⟨"need medicine", "", "OTHER"⟩).priority = Priority.HIGH ∧
    (fallbackPrioritization ⟨"need medicine", "", "OTHER"⟩).score = min (70 + 1 * 5) 99 :=
  ⟨by decide, by decide,
   (classify_high_priority_branch ⟨"need medicine", "", "OTHER"⟩ (by decide)
      (Or.inl (by decide))).1,
   by rw [(classify_high_priority_branch ⟨"need medicine", "", "OTHER"⟩ (by decide)
        (Or.inl (by decide))).2.1]; decide⟩

/-- C5 counterexample: the input "fire" classifies URGENT with score 0.92
while "medicine sick fever cough hungry food water shelter" classifies HIGH
with score 0.99 — a strictly higher priority carrying a strictly lower
score, refuting the claimed monotone association between score and the
priority ordering. -/
theorem score_priority_monotone_cex :
    priorityRank (fallbackPrioritization
        ⟨"medicine sick fever cough hungry food water shelter", "", "OTHER"⟩).priority <
      priorityRank (fallbackPrioritization ⟨"fire", "", "OTHER"⟩).priority ∧
    (fallbackPrioritization ⟨"fire", "", "OTHER"⟩).score <
      (fallbackPrioritization
        ⟨"medicine sick fever cough hungry food water shelter", "", "OTHER"⟩).score := by
  decide

/-- C5 amended: the monotone association between score and priority holds
for every pair of priorities except (URGENT, HIGH): if x classifies strictly
higher than y and the pair is not URGENT-over-HIGH, then x's score is at
least y's; every score is capped at 0.99 (see
`fallback_classify_rule_order` for the cap). -/
theorem score_priority_monotone_outside_urgent_high (x y : RequestData)
    (hrank : priorityRank (fallbackPrioritization y).priority <
      priorityRank (fallbackPrioritization x).priority)
    (hexc : ¬((fallbackPrioritization x).priority = Priority.URGENT ∧
      (fallbackPrioritization y).priority = Priority.HIGH)) :
    (fallbackPrioritization y).score ≤ (fallbackPrioritization x).score := by
  have hx := fallback_score_bounds x
  have hy := fallback_score_bounds y
  cases hpx : (fallbackPrioritization x).priority <;>
    cases hpy : (fallbackPrioritization y).priority <;>
    simp only [hpx, hpy, priorityRank] at hrank hexc hx hy <;>
    simp_all <;> omega

/-- Witness for `score_priority_monotone_outside_urgent_high`: URGENT
("fire", score 0.92) against MEDIUM ("", category EDUCATION, score 0.60). -/
theorem score_priority_monotone_outside_urgent_high_witness :
    priorityRank (fallbackPrioritization ⟨"", "", "EDUCATION"⟩).priority <
      priorityRank (fallbackPrioritization ⟨"fire", "", "OTHER"⟩).priority ∧
    ¬((fallbackPrioritization ⟨"fire", "", "OTHER"⟩).priority = Priority.URGENT ∧
      (fallbackPrioritization ⟨"", "", "EDUCATION"⟩).priority = Priority.HIGH) ∧
    (fallbackPrioritization ⟨"", "", "EDUCATION"⟩).score ≤
      (fallbackPrioritization ⟨"fire", "", "OTHER"⟩).score :=
  ⟨by decide, by decide,
   score_priority_monotone_outside_urgent_high ⟨"fire", "", "OTHER"⟩ ⟨"", "", "EDUCATION"⟩
     (by decide) (by decide)⟩

/-- Exact ceiling of the rational a / b over naturals, the value of
JavaScript `Math.ceil(a / b)` for non-negative integer inputs. -/
def ceilDiv (a b : Nat) : Nat :=
  (a + b - 1) / b

/-- Value produced by the JavaScript property access
`predictions[disasterType]` (with the `|| defaultPrediction` applied): a
resource-name/quantity table when it hits an own key or falls through to
the default, or a member inherited from `Object.prototype` when the
disaster type names one — `predictions` is a plain object literal, so keys
such as "toString" find the inherited (truthy) function and the `||` never
reaches the default table. -/
inductive PredictionsValue
  | table (entries : List (String × Nat))
  | inheritedPrototypeMember (name : String)
deriving DecidableEq, Repr

/-- Quantity of a named resource when the predictions value is a table. -/
def PredictionsValue.lookupQty (v : PredictionsValue) (k : String) : Option Nat :=
  match v with
  | PredictionsValue.table entries => entries.lookup k
  | PredictionsValue.inheritedPrototypeMember _ => none

/-- Property names a plain object literal inherits from `Object.prototype`;
accessing any of them yields a truthy value (a function, or the prototype
object itself for `__proto__`). -/
def objectPrototypeKeys : List String :=
  ["constructor", "hasOwnProperty", "isPrototypeOf", "propertyIsEnumerable",
   "toLocaleString", "toString", "valueOf", "__proto__",
   "__defineGetter__", "__defineSetter__", "__lookupGetter__", "__lookupSetter__"]

/-- Result shape of `fallbackResourcePrediction` (`timestamp` omitted). -/
structure ResourcePrediction where
  status : String
  disaster_type : String
  affected_population : Nat
  predictions : PredictionsValue
  note : String
deriving DecidableEq, Repr

/-- The `defaultPrediction` table of `fallbackResourcePrediction`. -/
def defaultPrediction (p : Nat) : List (String × Nat) :=
  [("water_liters", 3 * p), ("food_rations", 2 * p), ("blankets", p),
   ("first_aid_kits", ceilDiv p 30), ("volunteers_needed", ceilDiv p 100),
   ("emergency_kits", ceilDiv p 20)]

/-- The lookup `predictions[disasterType] || defaultPrediction` of
`fallbackResourcePrediction`: the five own keys of the object literal first,
then the prototype chain — a disaster type naming an `Object.prototype`
member returns that inherited truthy member, so only types matching neither
fall through to the default table. -/
def resourceTable (disasterType : String) (p : Nat) : PredictionsValue :=
  if disasterType = "FLOOD" then
    PredictionsValue.table
      [("water_liters", 5 * p), ("food_rations", 3 * p), ("blankets", p),
       ("first_aid_kits", ceilDiv p 50), ("emergency_kits", ceilDiv p 10),
       ("volunteers_needed", ceilDiv p 100), ("boats", max 1 (ceilDiv p 500)),
       ("life_jackets", ceilDiv p 2)]
  else if disasterType = "EARTHQUAKE" then
    PredictionsValue.table
      [("tents", ceilDiv p 5), ("first_aid_kits", ceilDiv p 20),
       ("rescue_teams", ceilDiv p 500), ("heavy_equipment", ceilDiv p 1000),
       ("volunteers_needed", ceilDiv p 50), ("blankets", 2 * p),
       ("food_rations", 2 * p), ("water_liters", 3 * p)]
  else if disasterType = "FIRE" then
    PredictionsValue.table
      [("temporary_shelter", ceilDiv p 10), ("clothing", p),
       ("food_rations", 2 * p), ("counseling_teams", ceilDiv p 100),
       ("volunteers_needed", ceilDiv p 75), ("first_aid_kits", ceilDiv p 30),
       ("blankets", p)]
  else if disasterType = "TYPHOON" then
    PredictionsValue.table
      [("water_liters", 4 * p), ("canned_goods", 7 * p), ("emergency_kits", p),
       ("generators", ceilDiv p 200), ("volunteers_needed", ceilDiv p 80),
       ("first_aid_kits", ceilDiv p 40), ("blankets", ceilDiv (3 * p) 2)]
  else if disasterType = "MEDICAL" then
    PredictionsValue.table
      [("first_aid_kits", ceilDiv p 10), ("masks", 10 * p),
       ("sanitizer_liters", ceilDiv p 5), ("volunteers_needed", ceilDiv p 50),
       ("ambulance_units", max 1 (ceilDiv p 1000))]
  else if disasterType ∈ objectPrototypeKeys then
    PredictionsValue.inheritedPrototypeMember disasterType
  else
    PredictionsValue.table (defaultPrediction p)

/-- `fallbackResourcePrediction(disasterType, affectedPopulation)` from
`aiService.js`: the looked-up predictions value wrapped with the success
status and the guideline-based fallback note. -/
def fallbackResourcePrediction (disasterType : String) (affectedPopulation : Nat) :
    ResourcePrediction :=
  { status := "success"
    disaster_type := disasterType
    affected_population := affectedPopulation
    predictions := resourceTable disasterType affectedPopulation
    note := "Fallback prediction based on standard emergency response guidelines" }

/-- C6 counterexample: "toString" is an unknown disaster type, yet the
program returns the member inherited from `Object.prototype` — not the
default table the claim promises for unknown types. -/
theorem resource_prediction_prototype_cex :
    (fallbackResourcePrediction "toString" 10).predictions =
      PredictionsValue.inheritedPrototypeMember "toString" ∧
    (fallbackResourcePrediction "toString" 10).predictions ≠
      PredictionsValue.table (defaultPrediction 10) := by
  decide

/-- C6 amended: for every disaster type and population the fallback
resource predictor reports success, echoes its inputs, carries the
guideline-based fallback note, and keeps the boat and ambulance minima at
1; an unknown disaster type falls through to the default table only when it
also names no `Object.prototype` member (disaster types such as "toString"
return the inherited member instead).  On the spec's concrete examples,
FLOOD/100 yields water 500, food rations 300, blankets 100, boats 1, life
jackets 50, and UNKNOWN_TYPE/10 uses the default table with water 30, food
rations 20, blankets 10. -/
theorem resource_prediction_shape_and_examples (dt : String) (p : Nat) :
    (fallbackResourcePrediction dt p).status = "success" ∧
    (fallbackResourcePrediction dt p).disaster_type = dt ∧
    (fallbackResourcePrediction dt p).affected_population = p ∧
    (fallbackResourcePrediction dt p).note =
      "Fallback prediction based on standard emergency response guidelines" ∧
    ((fallbackResourcePrediction "FLOOD" p).predictions.lookupQty "boats" =
      some (max 1 (ceilDiv p 500))) ∧
    ((fallbackResourcePrediction "MEDICAL" p).predictions.lookupQty "ambulance_units" =
      some (max 1 (ceilDiv p 1000))) ∧
    ((fallbackResourcePrediction "FLOOD" 100).predictions =
      PredictionsValue.table
        [("water_liters", 500), ("food_rations", 300), ("blankets", 100),
         ("first_aid_kits", 2), ("emergency_kits", 10), ("volunteers_needed", 1),
         ("boats", 1), ("life_jackets", 50)]) ∧
    (dt ∉ objectPrototypeKeys → dt ≠ "FLOOD" → dt ≠ "EARTHQUAKE" → dt ≠ "FIRE" →
      dt ≠ "TYPHOON" → dt ≠ "MEDICAL" →
      (fallbackResourcePrediction dt p).predictions =
        PredictionsValue.table (defaultPrediction p)) ∧
    ((fallbackResourcePrediction "UNKNOWN_TYPE" 10).predictions =
      PredictionsValue.table
        [("water_liters", 30), ("food_rations", 20), ("blankets", 10),
         ("first_aid_kits", 1), ("volunteers_needed", 1), ("emergency_kits", 1)]) := by
  refine ⟨rfl, rfl, rfl, rfl, ?_, ?_, by decide, ?_, by decide⟩
  · simp [fallbackResourcePrediction, resourceTable, PredictionsValue.lookupQty, List.lookup]
  · simp [fallbackResourcePrediction, resourceTable, PredictionsValue.lookupQty, List.lookup]
  · intro h0 h1 h2 h3 h4 h5
    simp [fallbackResourcePrediction, resourceTable, h0, h1, h2, h3, h4, h5]

/-- Witness for `resource_prediction_shape_and_examples`: "UNKNOWN_TYPE"
names no `Object.prototype` member and none of the five own keys, so it
receives the default table. -/
theorem resource_prediction_shape_and_examples_witness :
    ("UNKNOWN_TYPE" : String) ∉ objectPrototypeKeys ∧
    (fallbackResourcePrediction "UNKNOWN_TYPE" 10).predictions =
      PredictionsValue.table (defaultPrediction 10) :=
  ⟨by decide,
   (resource_prediction_shape_and_examples "UNKNOWN_TYPE" 10).2.2.2.2.2.2.2.1
     (by decide) (by decide) (by decide) (by decide) (by decide) (by decide)⟩

/-- One entry of the `responses` object of `fallbackChatbotResponse`: the
pattern key split at the bar characters, the canned response, the fixed
confidence (hundredths) and the suggested actions. -/
structure ChatEntry where
  patterns : List String
  response : String
  confidence : Nat
  actions : List String
deriving DecidableEq, Repr

/-- Result shape of `fallbackChatbotResponse` (`timestamp` omitted). -/
structure ChatReply where
  response : String
  confidence : Nat
  sources : List String
  suggested_actions : List String
deriving DecidableEq, Repr

/-- The ordered `responses` entries of `fallbackChatbotResponse`
(`Object.entries` preserves the insertion order of these string keys). -/
def chatResponses : List ChatEntry :=
  [⟨["hello", "hi", "hey", "kamusta"],
    "Hello! How can I help you with BarangayLink today?", 90,
    ["Submit Request", "Browse Events", "Make Donation"]⟩,
   ⟨["request", "help", "assistance", "tulong"],
    "You can submit a help request in the Services section. What type of assistance do you need?",
    80, ["Medical Help", "Food Support", "Emergency"]⟩,
   ⟨["medical", "doctor", "hospital", "sakit", "gamot"],
    "For medical emergencies, please call 911 immediately. For non-emergencies, you can submit a medical request through our system.",
    85, ["Submit Medical Request", "Find Health Center", "Emergency Contacts"]⟩,
   ⟨["food", "hunger", "meal", "gutom", "pagkain"],
    "We have a food assistance program. You can submit a food request or visit our community pantry during operating hours.",
    80, ["Submit Food Request", "View Pantry Locations", "Donate Food"]⟩,
   ⟨["event", "activity", "program", "meeting", "pulong"],
    "Check the Events section for upcoming community activities. You can also register as a volunteer for events!",
    80, ["Browse Events", "Volunteer Registration", "Create Event"]⟩,
   ⟨["donate", "donation", "contribute", "bigay", "abuloy"],
    "Thank you for wanting to help! Visit the Donations section to contribute. All donations are tracked transparently.",
    90, ["Make Donation", "View Campaigns", "Donation History"]⟩,
   ⟨["volunteer", "volunteering", "help others", "tumulong", "boluntaryo"],
    "That\x27s wonderful! Register as a volunteer in your profile settings, then browse available opportunities.",
    85, ["Volunteer Registration", "View Opportunities", "My Assignments"]⟩,
   ⟨["clearance", "certificate", "document", "permit", "cedula"],
    "For barangay clearances, please visit the office with: 1) Valid ID, 2) Proof of residency, 3) Purpose of clearance.",
    80, ["Requirements List", "Office Hours", "Online Request"]⟩,
   ⟨["complaint", "problem", "issue", "reklamo", "problema"],
    "You can submit a formal complaint through the Services section. Please provide detailed information and evidence if available.",
    80, ["Submit Complaint", "View Process", "Status Tracking"]⟩,
   ⟨["thank", "thanks", "salamat", "maraming salamat"],
    "You\x27re welcome! Is there anything else I can help you with?", 95, []⟩,
   ⟨["contact", "phone", "number", "tawag", "telepono"],
    "You can contact the barangay office at (02) 123-4567 during office hours (Monday-Friday, 8AM-5PM).",
    70, ["Emergency Contacts", "Office Location", "Email Support"]⟩]

/-- The default reply of `fallbackChatbotResponse` when no pattern matches. -/
def defaultChatReply : ChatReply :=
  { response := "I\x27m not sure about that. Please contact the barangay office directly for specific inquiries or check our FAQ section."
    confidence := 30
    sources := []
    suggested_actions := ["Contact Support", "Browse FAQ", "Submit General Inquiry"] }

/-- Does entry `e` match the lower-cased query: `patterns.some(p =>
lowerQuery.includes(p))`. -/
def entryMatches (lowerQuery : String) (e : ChatEntry) : Bool :=
  e.patterns.any (fun p => strContains lowerQuery p)

/-- `fallbackChatbotResponse(query)` from `aiService.js`: the first entry in
order whose pattern set matches the lower-cased query wins, with the fixed
FAQ source list; otherwise the default low-confidence reply. -/
def fallbackChatbotResponse (query : String) : ChatReply :=
  let lowerQuery := lowerString query
  match chatResponses.find? (fun e => entryMatches lowerQuery e) with
  | some c =>
      { response := c.response
        confidence := c.confidence
        sources := ["BarangayLink FAQ Database"]
        suggested_actions := c.actions }
  | none => defaultChatReply

/-- C7: any query containing "kamusta" (after lower-casing) hits the first,
greeting entry — confidence 0.9, FAQ source — even if later entries also
match; and a query matching no pattern of any entry receives the default
reply (confidence 0.3, empty sources, generic suggested actions). -/
theorem chatbot_first_match_wins (query : String) :
    (strContains (lowerString query) "kamusta" = true →
      fallbackChatbotResponse query =
        { response := "Hello! How can I help you with BarangayLink today?"
          confidence := 90
          sources := ["BarangayLink FAQ Database"]
          suggested_actions := ["Submit Request", "Browse Events", "Make Donation"] }) ∧
    ((∀ e ∈ chatResponses, entryMatches (lowerString query) e = false) →
      fallbackChatbotResponse query = defaultChatReply) := by
  constructor
  · intro h
    simp [fallbackChatbotResponse, chatResponses, List.find?, entryMatches, h]
  · intro h
    have hnone : chatResponses.find? (fun e => entryMatches (lowerString query) e) = none :=
      List.find?_eq_none.mpr (by simpa using h)
    simp [fallbackChatbotResponse, hnone]

/-- Witness for `chatbot_first_match_wins`: the adversarial multi-match
query "kamusta, may food ba?" (which also matches the later food entry)
gets the greeting reply, and the query "zzz" (matching nothing) gets the
default reply. -/
theorem chatbot_first_match_wins_witness :
    fallbackChatbotResponse "Kamusta, may food ba?" =
      { response := "Hello! How can I help you with BarangayLink today?"
        confidence := 90
        sources := ["BarangayLink FAQ Database"]
        suggested_actions := ["Submit Request", "Browse Events", "Make Donation"] } ∧
    fallbackChatbotResponse "zzz" = defaultChatReply :=
  ⟨(chatbot_first_match_wins "Kamusta, may food ba?").1 (by decide),
   (chatbot_first_match_wins "zzz").2 (by decide)⟩

/-- Ways the outbound call to the external classifier service can fail; the
`catch` clauses of `aiService.js` treat them all alike. -/
inductive ServiceError
  | networkError
  | timeout
  | malformedResponse
deriving DecidableEq, Repr

/-- Body of a successful `/api/prioritize` response as read by
`prioritizeRequest` (fields of `response.data` that are used). -/
structure ExternalPrioritizeData where
  priority : Priority
  score : Nat
  reason : String
  suggested_category : String
deriving DecidableEq, Repr

/-- `prioritizeRequest(requestData)`: on a successful external call the
response fields are repackaged into the local result shape; on any failure
the catch clause returns `fallbackPrioritization(requestData)`.  The
outcome of the single outbound call is passed in explicitly. -/
def prioritizeRequest (ext : Except ServiceError ExternalPrioritizeData)
    (rd : RequestData) : ClassificationResult :=
  match ext with
  | .ok d =>
      { priority := d.priority
        score := d.score
        reason := d.reason
        suggestedCategory := d.suggested_category }
  | .error _ => fallbackPrioritization rd

/-- Body of a successful `/api/chat` response as read by
`getChatbotResponse` (`timestamp` omitted as everywhere). -/
structure ExternalChatData where
  response : String
  confidence : Nat
  sources : List String
  suggested_actions : List String
deriving DecidableEq, Repr

/-- `getChatbotResponse(query, context)`: external reply on success,
`fallbackChatbotResponse(query)` from the catch clause on any failure. -/
def getChatbotResponse (ext : Except ServiceError ExternalChatData)
    (query : String) : ChatReply :=
  match ext with
  | .ok d =>
      { response := d.response
        confidence := d.confidence
        sources := d.sources
        suggested_actions := d.suggested_actions }
  | .error _ => fallbackChatbotResponse query

/-- `predictResourceNeeds(disasterType, affectedPopulation, location)`: the
external `response.data` is returned verbatim on success;
`fallbackResourcePrediction(disasterType, affectedPopulation)` from the
catch clause on any failure. -/
def predictResourceNeeds (ext : Except ServiceError ResourcePrediction)
    (disasterType : String) (affectedPopulation : Nat) : ResourcePrediction :=
  match ext with
  | .ok d => d
  | .error _ => fallbackResourcePrediction disasterType affectedPopulation

/-- C1: whatever the failure of the outbound call (network error, timeout,
malformed response), each gateway operation returns exactly the result of
its fallback function on the same inputs; the operations are total
functions, so no failure ever propagates to the caller. -/
theorem gateway_falls_back_on_failure (e : ServiceError) (rd : RequestData)
    (query : String) (disasterType : String) (affectedPopulation : Nat) :
    prioritizeRequest (.error e) rd = fallbackPrioritization rd ∧
    getChatbotResponse (.error e) query = fallbackChatbotResponse query ∧
    predictResourceNeeds (.error e) disasterType affectedPopulation =
      fallbackResourcePrediction disasterType affectedPopulation :=
  ⟨rfl, rfl, rfl⟩

/-- User roles of the system (the enum carried by the JWT and checked by the
connection handler and controllers: ADMIN, MODERATOR, MEMBER, VOLUNTEER). -/
inductive Role
  | ADMIN
  | MODERATOR
  | MEMBER
  | VOLUNTEER
deriving DecidableEq, Repr

/-- The string carried in `socket.user.role` for each role. -/
def Role.name : Role → String
  | Role.ADMIN => "ADMIN"
  | Role.MODERATOR => "MODERATOR"
  | Role.MEMBER => "MEMBER"
  | Role.VOLUNTEER => "VOLUNTEER"

/-- Modelled from the spec: one live real-time session of the Room Registry
(§4.5) — socket.io keeps this state inside the library, which is not part
of the repository; only the join calls are.  Attributes are `sessionId`,
`userId`, `role` and the set of joined rooms. -/
structure SessionRec where
  sessionId : String
  userId : String
  role : Role
  rooms : List String
deriving DecidableEq, Repr

/-- Modelled from the spec: the Room Registry state, the collection of live
sessions (§4.5). -/
abbrev Registry := List SessionRec

/-- The rooms a connection joins in the `io.on('connection')` handler:
`user-<id>`, the lower-cased role, and `admins` when the role is ADMIN or
MODERATOR. -/
def connectionRooms (userId : String) (role : Role) : List String :=
  ["user-" ++ userId, lowerString role.name] ++
    (if role = Role.ADMIN ∨ role = Role.MODERATOR then ["admins"] else [])

/-- Modelled from the spec: `register(sessionId, userId, role)` of the Room
Registry (§4.5) — socket.io session creation on connection, with the
automatic joins of the repository's connection handler. -/
def register (sessionId userId : String) (role : Role) (reg : Registry) : Registry :=
  ⟨sessionId, userId, role, connectionRooms userId role⟩ :: reg

/-- Modelled from the spec: `deregister(sessionId)` of the Room Registry
(§4.5) — socket.io disconnect removes the session from every room and
deletes it; idempotent. -/
def deregister (sessionId : String) (reg : Registry) : Registry :=
  reg.filter (fun s => s.sessionId != sessionId)

/-- Modelled from the spec: `joinRoom(sessionId, roomKey)` of the Room
Registry (§4.5) — the `socket.join` performed by the `join-request` /
`join-chat` handlers; idempotent. -/
def joinRoom (sessionId roomKey : String) (reg : Registry) : Registry :=
  reg.map (fun s =>
    if s.sessionId = sessionId then
      (if roomKey ∈ s.rooms then s else { s with rooms := roomKey :: s.rooms })
    else s)

/-- Modelled from the spec: `membersOf(roomKey)` of the Room Registry
(§4.5) — the derived index "sessions whose memberships contain this key";
an unknown room simply has no members. -/
def membersOf (roomKey : String) (reg : Registry) : List String :=
  (reg.filter (fun s => decide (roomKey ∈ s.rooms))).map (fun s => s.sessionId)

/-- Membership in `membersOf` unfolded to a witnessing session. -/
theorem mem_membersOf {roomKey sid : String} {reg : Registry} :
    sid ∈ membersOf roomKey reg ↔
      ∃ s ∈ reg, s.sessionId = sid ∧ roomKey ∈ s.rooms := by
  constructor
  · intro h
    simp only [membersOf, List.mem_map, List.mem_filter, decide_eq_true_eq] at h
    obtain ⟨s, ⟨hs, hr⟩, hid⟩ := h
    exact ⟨s, hs, hid, hr⟩
  · rintro ⟨s, hs, hid, hr⟩
    simp only [membersOf, List.mem_map, List.mem_filter, decide_eq_true_eq]
    exact ⟨s, ⟨hs, hr⟩, hid⟩

/-- A room key of the shape `user-<id>` is never the `admins` room. -/
theorem user_room_ne_admins (uid : String) : "user-" ++ uid ≠ "admins" := by
  intro h
  have h2 : ("user-" ++ uid).data = "admins".data := congrArg String.data h
  rw [String.data_append] at h2
  rw [show ("user-" : String).data = ['u', 's', 'e', 'r', '-'] from rfl,
     show ("admins" : String).data = ['a', 'd', 'm', 'i', 'n', 's'] from rfl] at h2
  simp at h2

/-- C8: a freshly registered session is a member of its user room and of its
lower-cased role room, is in `admins` exactly when the role is ADMIN or
MODERATOR, belongs to no room at all after deregistration, and querying a
room no session has joined yields the empty member list rather than an
error. -/
theorem register_room_membership (reg : Registry) (sid uid : String) (role : Role)
    (hfresh : ∀ s ∈ reg, s.sessionId ≠ sid) :
    sid ∈ membersOf ("user-" ++ uid) (register sid uid role reg) ∧
    sid ∈ membersOf (lowerString role.name) (register sid uid role reg) ∧
    (sid ∈ membersOf "admins" (register sid uid role reg) ↔
      (role = Role.ADMIN ∨ role = Role.MODERATOR)) ∧
    (∀ roomKey, sid ∉ membersOf roomKey (deregister sid (register sid uid role reg))) ∧
    (∀ roomKey (reg2 : Registry), (∀ s ∈ reg2, roomKey ∉ s.rooms) →
      membersOf roomKey reg2 = []) := by
  refine ⟨?_, ?_, ?_, ?_, ?_⟩
  · exact mem_membersOf.mpr ⟨_, List.mem_cons_self _ _, rfl, by simp [connectionRooms]⟩
  · exact mem_membersOf.mpr ⟨_, List.mem_cons_self _ _, rfl, by simp [connectionRooms]⟩
  · constructor
    · intro h
      rcases mem_membersOf.mp h with ⟨s, hs, hid, hr⟩
      rcases List.mem_cons.mp hs with rfl | hmem
      · cases role with
        | ADMIN => exact Or.inl rfl
        | MODERATOR => exact Or.inr rfl
        | MEMBER =>
            exfalso
            simp [connectionRooms] at hr
            rcases hr with h1 | h2
            · exact user_room_ne_admins uid h1.symm
            · exact absurd h2 (by decide)
        | VOLUNTEER =>
            exfalso
            simp [connectionRooms] at hr
            rcases hr with h1 | h2
            · exact user_room_ne_admins uid h1.symm
            · exact absurd h2 (by decide)
      · exact absurd hid (hfresh s hmem)
    · intro h
      refine mem_membersOf.mpr ⟨_, List.mem_cons_self _ _, rfl, ?_⟩
      rcases h with rfl | rfl <;> simp [connectionRooms]
  · intro roomKey h
    rcases mem_membersOf.mp h with ⟨s, hs, hid, _⟩
    rw [deregister, List.mem_filter] at hs
    have := hs.2
    simp only [bne_iff_ne, ne_eq] at this
    exact this hid
  · intro roomKey reg2 h
    have hf : reg2.filter (fun s => decide (roomKey ∈ s.rooms)) = [] := by
      rw [List.filter_eq_nil_iff]
      intro s hs
      simpa using h s hs
    simp [membersOf, hf]

/-- Witness for `register_room_membership`: registering session s1 for user
u1 with role ADMIN in the empty registry puts it in `user-u1`, in `admin`
and in `admins`; after `deregister(s1)` the `admins` room no longer
contains it; a memberless room reads back as the empty set. -/
theorem register_room_membership_witness :
    "s1" ∈ membersOf ("user-" ++ "u1") (register "s1" "u1" Role.ADMIN []) ∧
    "s1" ∈ membersOf (lowerString Role.ADMIN.name) (register "s1" "u1" Role.ADMIN []) ∧
    "s1" ∈ membersOf "admins" (register "s1" "u1" Role.ADMIN []) ∧
    "s1" ∉ membersOf "admins" (deregister "s1" (register "s1" "u1" Role.ADMIN [])) ∧
    membersOf "admins" (deregister "s1" (register "s1" "u1" Role.ADMIN [])) = [] :=
  have w := register_room_membership [] "s1" "u1" Role.ADMIN (by simp)
  ⟨w.1, w.2.1, w.2.2.1.mpr (Or.inl rfl), w.2.2.2.1 "admins", by decide⟩

/-- Payload of the `user-typing` event emitted by the `typing` handler. -/
structure TypingPayload where
  userId : String
  typing : Bool
deriving DecidableEq, Repr

/-- The `socket.on('typing')` handler: `socket.to('chat-' + chatId)` emits
`user-typing` with the emitter's user id to the members of the chat room.
Modelled from the spec: `socket.to(room)` is socket.io library behaviour —
delivery to all current members of the room except the emitting session
(§6: "fanned out to all *other* members of `chat-<chatId>`"). -/
def handleTyping (senderSid senderUid chatId : String) (typingFlag : Bool)
    (reg : Registry) : List (String × TypingPayload) :=
  ((membersOf ("chat-" ++ chatId) reg).filter (fun m => m != senderSid)).map
    (fun m => (m, ⟨senderUid, typingFlag⟩))

/-- C9: the `user-typing` event reaches exactly the members of
`chat-<chatId>` other than the emitting session — every other member
receives `(userId, isTyping)`, the emitter itself never receives anything,
and nothing is delivered outside the room. -/
theorem typing_fanout_excludes_sender (reg : Registry)
    (senderSid senderUid chatId : String) (b : Bool) :
    (∀ m ∈ membersOf ("chat-" ++ chatId) reg, m ≠ senderSid →
      (m, (⟨senderUid, b⟩ : TypingPayload)) ∈
        handleTyping senderSid senderUid chatId b reg) ∧
    (∀ p : TypingPayload,
      (senderSid, p) ∉ handleTyping senderSid senderUid chatId b reg) ∧
    (∀ m p, (m, p) ∈ handleTyping senderSid senderUid chatId b reg →
      m ∈ membersOf ("chat-" ++ chatId) reg ∧ m ≠ senderSid ∧
        p = (⟨senderUid, b⟩ : TypingPayload)) := by
  refine ⟨?_, ?_, ?_⟩
  · intro m hm hne
    simp only [handleTyping, List.mem_map, List.mem_filter, bne_iff_ne]
    exact ⟨m, ⟨hm, hne⟩, rfl⟩
  · intro p hp
    simp only [handleTyping, List.mem_map, List.mem_filter, bne_iff_ne] at hp
    obtain ⟨m, ⟨_, hne⟩, hpair⟩ := hp
    exact hne (congrArg Prod.fst hpair)
  · intro m p hp
    simp only [handleTyping, List.mem_map, List.mem_filter, bne_iff_ne] at hp
    obtain ⟨m2, ⟨hm2, hne⟩, hpair⟩ := hp
    injection hpair with h1 h2
    subst h1
    subst h2
    exact ⟨hm2, hne, rfl⟩

/-- Witness for `typing_fanout_excludes_sender`: in a registry where
sessions s1 and s2 both joined `chat-7`, s1 emitting typing delivers the
payload to s2 and not to s1. -/
theorem typing_fanout_excludes_sender_witness :
    ("s2", (⟨"u1", true⟩ : TypingPayload)) ∈
      handleTyping "s1" "u1" "7" true
        (joinRoom "s1" "chat-7" (joinRoom "s2" "chat-7"
          (register "s2" "u2" Role.MEMBER (register "s1" "u1" Role.MEMBER [])))) ∧
    ("s1", (⟨"u1", true⟩ : TypingPayload)) ∉
      handleTyping "s1" "u1" "7" true
        (joinRoom "s1" "chat-7" (joinRoom "s2" "chat-7"
          (register "s2" "u2" Role.MEMBER (register "s1" "u1" Role.MEMBER [])))) :=
  ⟨(typing_fanout_excludes_sender _ "s1" "u1" "7" true).1 "s2" (by decide) (by decide),
   (typing_fanout_excludes_sender _ "s1" "u1" "7" true).2.1 ⟨"u1", true⟩⟩

/-- `getIO()` from the socket utility module: throws "Socket.io not
initialized" while the module-level `io` is unset, otherwise returns it. -/
def getIo (st : Option Registry) : Except String Registry :=
  match st with
  | none => Except.error "Socket.io not initialized"
  | some reg => Except.ok reg

/-- Observable outcome of one fanout helper call: the target room, the
emitted event name, the sessions the event was delivered to, and whether
the catch clause logged an error instead. -/
structure FanoutOutcome where
  room : String
  event : String
  deliveries : List String
  errorLogged : Bool
deriving DecidableEq, Repr

/-- `emitNotification(userId, notification)`: emits `notification` to
`user-<userId>`; the `try`/`catch` turns a `getIO` failure into a logged
error and a normal return.  Delivery to every member of the room is
socket.io `io.to(room).emit` behaviour, modelled from the spec (§4.6). -/
def emitNotification (st : Option Registry) (userId : String) : FanoutOutcome :=
  match getIo st with
  | Except.ok reg =>
      ⟨"user-" ++ userId, "notification", membersOf ("user-" ++ userId) reg, false⟩
  | Except.error _ => ⟨"user-" ++ userId, "notification", [], true⟩

/-- `broadcastToAdmins(event, data)`: emits the given event to `admins`,
with the same `try`/`catch` wrapping as `emitNotification`. -/
def broadcastToAdmins (st : Option Registry) (event : String) : FanoutOutcome :=
  match getIo st with
  | Except.ok reg => ⟨"admins", event, membersOf "admins" reg, false⟩
  | Except.error _ => ⟨"admins", event, [], true⟩

set_option linter.unusedVariables false in
/-- `updateRequestStatus(requestId, status)`: emits
`request-status-updated` to `request-<requestId>`, with the same
`try`/`catch` wrapping (the `{requestId, status, updatedAt}` payload is
opaque data and is not modelled, so `status` is carried but unread). -/
def updateRequestStatus (st : Option Registry) (requestId status : String) :
    FanoutOutcome :=
  match getIo st with
  | Except.ok reg =>
      ⟨"request-" ++ requestId, "request-status-updated",
       membersOf ("request-" ++ requestId) reg, false⟩
  | Except.error _ => ⟨"request-" ++ requestId, "request-status-updated", [], true⟩

/-- C10: the three fanout helpers always return normally — with the
transport uninitialized the `getIO` error is caught and logged and nothing
is delivered, and with the transport initialized they deliver to exactly
the members of the target room (zero deliveries when the room is empty)
without logging an error. -/
theorem fanout_helpers_never_raise (st : Option Registry)
    (userId event requestId status : String) :
    (st = none →
      emitNotification st userId =
        ⟨"user-" ++ userId, "notification", [], true⟩ ∧
      broadcastToAdmins st event = ⟨"admins", event, [], true⟩ ∧
      updateRequestStatus st requestId status =
        ⟨"request-" ++ requestId, "request-status-updated", [], true⟩) ∧
    (∀ reg, st = some reg →
      emitNotification st userId =
        ⟨"user-" ++ userId, "notification",
         membersOf ("user-" ++ userId) reg, false⟩ ∧
      broadcastToAdmins st event =
        ⟨"admins", event, membersOf "admins" reg, false⟩ ∧
      updateRequestStatus st requestId status =
        ⟨"request-" ++ requestId, "request-status-updated",
         membersOf ("request-" ++ requestId) reg, false⟩ ∧
      (membersOf ("user-" ++ userId) reg = [] →
        (emitNotification st userId).deliveries = [])) := by
  constructor
  · rintro rfl
    exact ⟨rfl, rfl, rfl⟩
  · rintro reg rfl
    refine ⟨rfl, rfl, rfl, ?_⟩
    intro h
    simp [emitNotification, getIo, h]

/-- Witness for `fanout_helpers_never_raise`: with the transport
uninitialized the notification helper logs and delivers nothing; with an
empty registry it succeeds with zero deliveries. -/
theorem fanout_helpers_never_raise_witness :
    emitNotification none "u1" = ⟨"user-" ++ "u1", "notification", [], true⟩ ∧
    emitNotification (some []) "u1" =
      ⟨"user-" ++ "u1", "notification", membersOf ("user-" ++ "u1") [], false⟩ ∧
    (emitNotification (some []) "u1").deliveries = [] :=
  have w1 := fanout_helpers_never_raise none "u1" "new-request" "r1" "RESOLVED"
  have w2 := fanout_helpers_never_raise (some []) "u1" "new-request" "r1" "RESOLVED"
  ⟨(w1.1 rfl).1, (w2.2 [] rfl).1, (w2.2 [] rfl).2.2.2 rfl⟩

end BarangayLink
